import Mathlib

/-!
Shallow embedding of the core of the kit-mcp repository: the sliding-window
rate limiter (src/utils/rate-limiter.ts), the response cache
(src/utils/cache.ts) and the account-audit aggregator
(src/functions/account-audit.ts).  JavaScript numbers that only ever hold
integers (timestamps in ms, counts, scores built from integer increments)
are modelled as Int/Nat; the health score, which divides subscriber counts,
is modelled in ℚ.  JavaScript truthiness (`x || d` treating 0, "" and
undefined as falsy) is modelled explicitly where the source relies on it.
-/

/-- Characters of `needle` appearing as a prefix of `hay` (chars compared with `==`). -/
def hasPrefixCh : List Char → List Char → Bool
  | [], _ => true
  | _ :: _, [] => false
  | c :: cs, d :: ds => c == d && hasPrefixCh cs ds

/-- Substring test on char lists: `needle` occurs contiguously inside `hay`.
Models JavaScript `hay.includes(needle)`. -/
def containsSub : List Char → List Char → Bool
  | [], needle => needle.isEmpty
  | hay@(_ :: t), needle => hasPrefixCh needle hay || containsSub t needle

/-- Models JavaScript `hay.includes(sub)` on strings (case-sensitive). -/
def containsStr (hay sub : String) : Bool := containsSub hay.data sub.data

/-- Models JavaScript `s.toLowerCase()` (ASCII; the repository only matches ASCII keywords). -/
def lowerStr (s : String) : String := String.mk (s.data.map Char.toLower)

/-- JSON values as they appear in cache-key parameters of this repository
(booleans, numbers, strings). -/
inductive Json where
  | null : Json
  | bool (b : Bool) : Json
  | num (n : Int) : Json
  | str (s : String) : Json
deriving DecidableEq, Repr

/-- Models `JSON.stringify` on the scalar values used in cache keys.
String escaping is not needed by any key this repository builds. -/
def jsonStringify : Json → String
  | Json.null => "null"
  | Json.bool true => "true"
  | Json.bool false => "false"
  | Json.num n => toString n
  | Json.str s => "\"" ++ s ++ "\""

/-- Lookup of `params[key]` for a JavaScript object modelled as an association
list with unique keys (`Object.keys` always finds the value). -/
def lookupJ (k : String) (params : List (String × Json)) : Json :=
  (List.lookup k params).getD Json.null

/-- Embeds `ApiCache.generateKey(prefix, params)` (src/utils/cache.ts, lines
141-148): sort the object keys, serialize each as `key:JSON-value`, join with
`|`, and prepend the prefix unless the joined string is empty (the source
tests the joined string for truthiness). -/
def generateKey (pfx : String) (params : List (String × Json)) : String :=
  let sortedParams :=
    String.intercalate "|"
      ((List.insertionSort (· ≤ ·) (params.map Prod.fst)).map
        (fun k => k ++ ":" ++ jsonStringify (lookupJ k params)))
  if sortedParams = "" then pfx else pfx ++ ":" ++ sortedParams

/-- State of an `ApiCache` instance over values of type `V` (src/utils/cache.ts).
Entries are `(key, value, expiresAt)`; `expiresAt` is in seconds like the
node-cache TTLs the source passes.  `defaultTTL` is `config.ttl` (default 300). -/
structure CacheState (V : Type) where
  enabled : Bool
  entries : List (String × V × Int)
  hits : Nat
  misses : Nat
  defaultTTL : Int
deriving Repr

/-- Entry stored under `key`, together with its expiry, if any. -/
def cacheFind {V : Type} (st : CacheState V) (key : String) : Option (V × Int) :=
  List.lookup key st.entries

/-- Embeds `ApiCache.get` (src/utils/cache.ts, lines 58-74): disabled cache
always misses; a present, unexpired entry is a hit; an expired or absent entry
is a miss (node-cache drops an expired entry on read). -/
def cacheGet {V : Type} (st : CacheState V) (key : String) (now : Int) :
    Option V × CacheState V :=
  if st.enabled then
    match List.lookup key st.entries with
    | some (v, expiresAt) =>
        if now < expiresAt then
          (some v, { st with hits := st.hits + 1 })
        else
          (none, { st with misses := st.misses + 1,
                           entries := st.entries.filter (fun e => !(e.1 == key)) })
    | none => (none, { st with misses := st.misses + 1 })
  else
    (none, st)

/-- JavaScript `o || d` on an optional integer: `undefined` and `0` are falsy. -/
def orFalsyInt (o : Option Int) (d : Int) : Int :=
  match o with
  | some t => if t = 0 then d else t
  | none => d

/-- Embeds `ApiCache.set` (src/utils/cache.ts, lines 76-84): a disabled cache
stores nothing and reports failure; otherwise the entry replaces any previous
entry under the same key, expiring `ttl` seconds from now.  The source computes
the TTL as `ttl || this.config.ttl`, so an absent argument — or a passed TTL of
0, which is falsy in JavaScript — falls back to the configured default. -/
def cacheSet {V : Type} (st : CacheState V) (key : String) (v : V)
    (ttl : Option Int) (now : Int) : CacheState V × Bool :=
  if st.enabled then
    let t := orFalsyInt ttl st.defaultTTL
    ({ st with entries := (key, v, now + t) :: st.entries.filter (fun e => !(e.1 == key)) },
     true)
  else
    (st, false)

/-- TTL strategies of `setWithStrategy` (src/utils/cache.ts, lines 151-160). -/
inductive Strategy where
  | short : Strategy
  | medium : Strategy
  | long : Strategy
  | static : Strategy
deriving DecidableEq, Repr

/-- TTL map of `setWithStrategy`: short=300s, medium=900s, long=1800s, static=86400s. -/
def strategyTTL : Strategy → Int
  | Strategy.short => 300
  | Strategy.medium => 900
  | Strategy.long => 1800
  | Strategy.static => 86400

/-- Embeds `ApiCache.setWithStrategy` (src/utils/cache.ts, lines 151-160). -/
def setWithStrategy {V : Type} (st : CacheState V) (key : String) (v : V)
    (strategy : Strategy) (now : Int) : CacheState V × Bool :=
  cacheSet st key v (some (strategyTTL strategy)) now

/-- Embeds `ApiCache.getOrSet` (src/utils/cache.ts, lines 177-190).  The
supplier is a thunk; the final `Nat` counts how often it was invoked. -/
def getOrSet {V : Type} (st : CacheState V) (key : String)
    (fetchFunction : Unit → V) (ttl : Option Int) (now : Int) :
    V × CacheState V × Nat :=
  match cacheGet st key now with
  | (some cached, st') => (cached, st', 0)
  | (none, st') =>
      let value := fetchFunction ()
      (value, (cacheSet st' key value ttl now).1, 1)

/-- Rate-limiter configuration (src/config/auth.ts `RateLimitConfig`);
only the fields the limiter reads. -/
structure RateLimitConfig where
  requestsPerMinute : Nat
  retryDelay : Int
  maxRetryDelay : Int
deriving Repr

/-- One window record `(timestamp, count)` (src/utils/rate-limiter.ts
`RequestRecord`); timestamps are `Date.now()` milliseconds. -/
abbrev RequestRecord := Int × Nat

/-- Sum of the `count` fields, written as the source's
`reduce((sum, req) => sum + req.count, 0)`. -/
def windowSum (requests : List RequestRecord) : Nat :=
  requests.foldl (fun sum req => sum + req.2) 0

/-- Embeds `RateLimiter.canMakeRequest` (src/utils/rate-limiter.ts, lines
23-34): purge records with `timestamp <= now - 60000`, keep the purged window
as the new state, and admit iff the remaining counts sum to strictly less
than `requestsPerMinute`. -/
def canMakeRequest (config : RateLimitConfig) (requests : List RequestRecord)
    (now : Int) : List RequestRecord × Bool :=
  let oneMinuteAgo := now - 60000
  let kept := requests.filter (fun req => oneMinuteAgo < req.1)
  (kept, decide (windowSum kept < config.requestsPerMinute))

/-- Embeds `RateLimiter.recordRequest` (src/utils/rate-limiter.ts, lines
58-64): append `(now, count)` to the window. -/
def recordRequest (requests : List RequestRecord) (now : Int) (count : Nat) :
    List RequestRecord :=
  requests ++ [(now, count)]

/-- Status record returned by `RateLimiter.getStatus`. -/
structure RateStatus where
  requestsInLastMinute : Nat
  remainingRequests : Nat
  resetTime : Int
deriving Repr

/-- Embeds `RateLimiter.getStatus` (src/utils/rate-limiter.ts, lines 87-110):
purge, sum the remaining counts, clamp the remaining allowance at 0 (Nat
subtraction models `Math.max(0, ...)`), and report the expiry of the first
surviving record, or `now` for an empty window. -/
def getStatus (config : RateLimitConfig) (requests : List RequestRecord)
    (now : Int) : List RequestRecord × RateStatus :=
  let kept := requests.filter (fun req => now - 60000 < req.1)
  let requestsInLastMinute := windowSum kept
  let remainingRequests := config.requestsPerMinute - requestsInLastMinute
  let resetTime := match kept.head? with
    | some oldest => oldest.1 + 60000
    | none => now
  (kept, ⟨requestsInLastMinute, remainingRequests, resetTime⟩)

/-- Wait time computed by `RateLimiter.waitForAvailability` (src/utils/
rate-limiter.ts, lines 39-53) before re-checking admission: `60000 - (now -
requests[0].timestamp)`, or the fixed 1000ms when the window is empty. -/
def waitTimeOf (requests : List RequestRecord) (now : Int) : Int :=
  match requests.head? with
  | some oldest => 60000 - (now - oldest.1)
  | none => 1000

/-- Window records ordered by non-decreasing timestamp. -/
def SortedWindow (requests : List RequestRecord) : Prop :=
  List.Pairwise (fun a b => a.1 ≤ b.1) requests

/-- JavaScript `o || d` on an optional Nat: `undefined` and `0` are falsy. -/
def orFalsyNat (o : Option Nat) (d : Nat) : Nat :=
  match o with
  | some n => if n = 0 then d else n
  | none => d

/-- JavaScript `o || d` on an optional rational: `undefined` and `0` are falsy. -/
def orFalsyQ (o : Option ℚ) (d : ℚ) : ℚ :=
  match o with
  | some q => if q = 0 then d else q
  | none => d

/-- JavaScript `o || d` on an optional string: `undefined` and `""` are falsy. -/
def orFalsyStr (o : Option String) (d : String) : String :=
  match o with
  | some s => if s = "" then d else s
  | none => d

/-- Remote `Tag` entity, the fields the audit reads. -/
structure Tag where
  id : Nat
  name : String
  created_at : String
deriving DecidableEq, Repr

/-- Remote `Sequence` entity.  The source field `repeat` is a Lean keyword and
is embedded as `repeatFlag`. -/
structure Sequence where
  id : Nat
  name : String
  hold : Bool
  repeatFlag : Bool
deriving DecidableEq, Repr

/-- Remote `Form` entity, the fields the audit reads. -/
structure Form where
  id : Nat
  name : String
  conversion_rate : Option ℚ
deriving DecidableEq, Repr

/-- Remote `CustomField` entity.  The source field `type` is a Lean keyword and
is embedded as `fieldType`; `key` and `type` may be absent in the remote data. -/
structure CustomField where
  id : Nat
  name : String
  key : Option String
  fieldType : Option String
  created_at : String
deriving DecidableEq, Repr

/-- Remote subscriber record (only its presence in lists matters to the audit). -/
structure Subscriber where
  id : Nat
deriving DecidableEq, Repr

/-- Pagination block of a paged response; `total_count` is only present when
requested. -/
structure Pagination where
  total_count : Option Nat
deriving DecidableEq, Repr

/-- Paged subscribers response; `pagination` may be absent. -/
structure SubscribersResp where
  subscribers : List Subscriber
  pagination : Option Pagination
deriving DecidableEq, Repr

/-- Response of `getTags`. -/
structure TagsResp where
  tags : List Tag
deriving DecidableEq, Repr

/-- Response of `getSequences`. -/
structure SequencesResp where
  sequences : List Sequence
deriving DecidableEq, Repr

/-- Response of `getForms`. -/
structure FormsResp where
  forms : List Form
deriving DecidableEq, Repr

/-- Response of `getCustomFields`. -/
structure CustomFieldsResp where
  custom_fields : List CustomField
deriving DecidableEq, Repr

/-- Response of `getAccount` (never read after extraction in the audit). -/
structure AccountResp where
  id : Nat
  name : String
deriving DecidableEq, Repr

/-- Response of `getEmailStats` (extracted but never read by the audit). -/
structure EmailStatsResp where
  total_sent : Nat
  total_opened : Nat
  total_clicked : Nat
deriving DecidableEq, Repr

/-- Response of `getGrowthStats`; the audit reads `growth_rate`. -/
structure GrowthStatsResp where
  growth_rate : Option ℚ
  new_subscribers : Option Nat
deriving DecidableEq, Repr

/-- Subscriber-count fields that `calculateListHealthScore` reads from its
untyped `stats` argument; each may be absent on the object actually passed. -/
structure StatsIn where
  total_subscribers : Option Nat
  active_subscribers : Option Nat
  bounced_subscribers : Option Nat
  complained_subscribers : Option Nat
deriving DecidableEq, Repr

/-- Embeds `calculateListHealthScore` (src/functions/account-audit.ts, lines
294-304): `total` falls back to 1 when absent or 0 (JS `|| 1`), the other
counts fall back to 0, and the score is
`max(0, min(100, active/total*100 - (bounced+complained)/total*50))`. -/
def calculateListHealthScore (stats : StatsIn) : ℚ :=
  let total : ℚ := (orFalsyNat stats.total_subscribers 1 : Nat)
  let active : ℚ := (orFalsyNat stats.active_subscribers 0 : Nat)
  let bounced : ℚ := (orFalsyNat stats.bounced_subscribers 0 : Nat)
  let complained : ℚ := (orFalsyNat stats.complained_subscribers 0 : Nat)
  let healthR := active / total
  let negativeR := (bounced + complained) / total
  max 0 (min 100 (healthR * 100 - negativeR * 50))

/-- Embeds `calculateOptimizationScore` (src/functions/account-audit.ts, lines
325-335).  The two name checks use JavaScript `String.includes`, which is
case-sensitive. -/
def calculateOptimizationScore (sequence : Sequence) : Nat :=
  let score := 50
  let score := if containsStr sequence.name "welcome" then score + 10 else score
  let score := if containsStr sequence.name "nurture" then score + 10 else score
  let score := if !sequence.hold then score + 20 else score
  let score := if sequence.repeatFlag then score + 10 else score
  min 100 score

/-- Embeds `calculateSubscriberQualityScore` (src/functions/account-audit.ts,
lines 337-340): the source tests `form.conversion_rate` for truthiness, so an
absent or zero rate yields the default 50. -/
def calculateSubscriberQualityScore (form : Form) : ℚ :=
  match form.conversion_rate with
  | some r => if r = 0 then 50 else min 100 (r * 10)
  | none => 50

/-- Embeds `calculateDataQualityScore` (src/functions/account-audit.ts, lines
342-351): +20 for a name longer than 3 characters, +20 for a non-empty key,
+10 for type strictly equal to "text", capped at 100. -/
def calculateDataQualityScore (field : CustomField) : Nat :=
  let score := 50
  let score := if 3 < field.name.length then score + 20 else score
  let score := if (match field.key with
                   | some k => decide (0 < k.length)
                   | none => false) then score + 20 else score
  let score := if field.fieldType == some "text" then score + 10 else score
  min 100 score

/-- Embeds `assessPersonalizationOpportunity` (src/functions/account-audit.ts,
lines 353-361): lowercase the field name once, then test substrings in a fixed
order; the first matching branch decides the classification. -/
def assessPersonalizationOpportunity (field : CustomField) : String :=
  let fieldName := lowerStr field.name
  if containsStr fieldName "name" then "High - Use for email personalization"
  else if containsStr fieldName "location" || containsStr fieldName "state" then
    "Medium - Geographic targeting"
  else if containsStr fieldName "specialty" || containsStr fieldName "industry" then
    "High - Professional/industry segmentation"
  else "Low - General data field"

/-- Embeds `calculateTagUsageFrequency` (src/functions/account-audit.ts, lines
306-310); the date arithmetic of `getDaysSince` is supplied as a function. -/
def calculateTagUsageFrequency (daysSince : String → Int) (tag : Tag) : ℚ :=
  let daysSinceCreation := daysSince tag.created_at
  if 0 < daysSinceCreation then 1 / (daysSinceCreation : ℚ) else 1

/-- Embeds `assessBehavioralTracking` (src/functions/account-audit.ts, lines
312-323). -/
def assessBehavioralTracking (tags : List Tag) : String :=
  let behavioralKeywords := ["clicked", "opened", "purchased", "engaged", "visited"]
  let behavioralTags := tags.filter (fun tag =>
    behavioralKeywords.any (fun keyword => containsStr (lowerStr tag.name) keyword))
  if 5 ≤ behavioralTags.length then "Advanced"
  else if 2 ≤ behavioralTags.length then "Basic"
  else "None"

/-- Re-engagement recommendation text (account-audit.ts line 263). -/
def recReEngagement : String :=
  "List health is below optimal. Consider implementing re-engagement campaigns and improving signup quality."

/-- Segmentation recommendation text (account-audit.ts line 268). -/
def recSegmentation : String :=
  "Limited segmentation detected. Implement behavioral tags to improve targeting and personalization."

/-- Automation-expansion recommendation text (account-audit.ts line 274). -/
def recAutomation : String :=
  "Expand automation strategy. Consider welcome series, nurture sequences, and re-engagement campaigns."

/-- Lead-capture-diversification recommendation text (account-audit.ts line 279). -/
def recLeadCapture : String :=
  "Diversify lead capture strategy. Test multiple form types and placements to maximize conversions."

/-- Always-included brand-consistency recommendation (account-audit.ts line 283). -/
def recBrand : String :=
  "Ensure all automation content maintains consistent brand positioning and messaging."

/-- Always-included advanced-segment-tracking recommendation (account-audit.ts line 284). -/
def recSegmentTracking : String :=
  "Implement advanced segment tracking (Customer type, engagement level, lifecycle stage) for targeted messaging."

/-- Embeds `generateRecommendations` (src/functions/account-audit.ts, lines
256-291).  `stats` carries the subscriber-count fields the health-score check
reads from the object passed in (at the call site in `execute` that object is
`{emailStats, growthStats}`, which has none of them). -/
def generateRecommendations (stats : StatsIn) (tags : TagsResp)
    (sequences : SequencesResp) (forms : FormsResp) : List String :=
  (if calculateListHealthScore stats < 70 then [recReEngagement] else []) ++
  (if tags.tags.length < 5 then [recSegmentation] else []) ++
  (if (sequences.sequences.filter (fun seq => !seq.hold)).length < 3 then
    [recAutomation] else []) ++
  (if forms.forms.length < 2 then [recLeadCapture] else []) ++
  [recBrand, recSegmentTracking]

/-- Engagement metrics placed in each tag-usage record (all zero in the source). -/
structure EngagementMetrics where
  open_rate : ℚ
  click_rate : ℚ
  unsubscribe_rate : ℚ
  complaint_rate : ℚ
  engagement_score : ℚ
deriving DecidableEq, Repr

/-- One row of `tag_usage_distribution`. -/
structure TagUsage where
  tag : Tag
  subscriber_count : Nat
  engagement_metrics : EngagementMetrics
  usage_frequency : ℚ
deriving DecidableEq, Repr

/-- Section `account_summary` of the audit report. -/
structure AccountSummary where
  total_subscribers : Nat
  active_subscribers : Nat
  unsubscribed_count : Nat
  growth_rate_30d : ℚ
  list_health_score : ℚ
deriving DecidableEq, Repr

/-- Section `segmentation_analysis` of the audit report. -/
structure SegmentationAnalysis where
  total_tags : Nat
  active_segments : List Tag
  tag_usage_distribution : List TagUsage
  behavioral_tracking_status : String
deriving DecidableEq, Repr

/-- Per-automation performance block (all counters zero in the source except
`subscribers_entered`). -/
structure AutomationPerformance where
  automation_id : Nat
  triggers_fired : Nat
  subscribers_entered : Nat
  completion_rate : ℚ
  goal_completion_rate : ℚ
  avg_time_to_complete : ℚ
deriving DecidableEq, Repr

/-- Automation record placed in `automation_performance`. -/
structure AutomationInfo where
  id : Nat
  name : String
  status : String
  trigger_type : String
  subscriber_count : Nat
  conversion_rate : ℚ
  performance_data : AutomationPerformance
deriving DecidableEq, Repr

/-- One row of `automation_performance`. -/
structure AutomationMetrics where
  automation : AutomationInfo
  performance : AutomationPerformance
  optimization_score : Nat
deriving DecidableEq, Repr

/-- Section `automation_overview` of the audit report. -/
structure AutomationOverview where
  total_sequences : Nat
  active_sequences : List Sequence
  total_automations : Nat
  active_automations : List Sequence
  automation_performance : List AutomationMetrics
deriving DecidableEq, Repr

/-- One row of `conversion_rates`. -/
structure ConversionData where
  form_id : Nat
  conversion_rate : ℚ
  subscriber_quality_score : ℚ
deriving DecidableEq, Repr

/-- Placeholder for the `form_performance` rows (the source always leaves the
list empty). -/
structure FormPerformance where
  form_id : Nat
deriving DecidableEq, Repr

/-- Section `lead_capture_analysis` of the audit report. -/
structure LeadCaptureAnalysis where
  total_forms : Nat
  form_performance : List FormPerformance
  conversion_rates : List ConversionData
deriving DecidableEq, Repr

/-- Field record inside a custom-field analysis row; `fieldType` is the source
`type` after the `field.type || 'text'` fallback. -/
structure CustomFieldOut where
  id : Nat
  name : String
  key : Option String
  fieldType : String
  created_at : String
deriving DecidableEq, Repr

/-- One row of `custom_fields_usage`. -/
structure CustomFieldAnalysis where
  field : CustomFieldOut
  usage_percentage : ℚ
  data_quality_score : Nat
  personalization_opportunity : String
deriving DecidableEq, Repr

/-- The complete audit report (`AccountAudit` in src/types). -/
structure AccountAudit where
  account_summary : AccountSummary
  segmentation_analysis : SegmentationAnalysis
  automation_overview : AutomationOverview
  lead_capture_analysis : LeadCaptureAnalysis
  custom_fields_usage : List CustomFieldAnalysis
  strategic_recommendations : List String
deriving DecidableEq, Repr

/-- Outcome of one settled promise, as produced by `Promise.allSettled`. -/
inductive PResult (α : Type) where
  | fulfilled (value : α) : PResult α
  | rejected (reason : String) : PResult α
deriving DecidableEq, Repr

/-- Embeds the `getResult` extractor of `execute` (account-audit.ts lines
61-62): a fulfilled outcome yields its value, a rejected one yields null. -/
def getResult {α : Type} : PResult α → Option α
  | PResult.fulfilled v => some v
  | PResult.rejected _ => none

/-- Environment of the date-dependent helpers: `cutoff90` is the ISO string
`getDateDaysAgo(90)` returns, `daysSince` the day count `getDaysSince`
computes from a `created_at` string. -/
structure AuditEnv where
  cutoff90 : String
  daysSince : String → Int

/-- The `{emailStats, growthStats}` wrapper object built in `execute` (lines
77 and 86) and passed to `buildAccountSummary` and `generateRecommendations`. -/
structure StatsWrapper where
  emailStats : Option EmailStatsResp
  growthStats : Option GrowthStatsResp
deriving DecidableEq, Repr

/-- Subscriber-count view of the `{emailStats, growthStats}` wrapper: none of
the four fields `calculateListHealthScore` reads exists on that object. -/
def statsWrapperIn : StatsIn := ⟨none, none, none, none⟩

/-- Embeds `buildAccountSummary` (src/functions/account-audit.ts, lines
104-129): active = total, unsubscribed = 0, health score over
`(total, total, 0, 0)`, growth rate from `growthStats.growth_rate || 0`. -/
def buildAccountSummary (stats : StatsWrapper) (totalSubscribers : Nat) :
    AccountSummary :=
  let activeSubscribers := totalSubscribers
  let unsubscribedCount := 0
  let listHealthScore := calculateListHealthScore
    ⟨some totalSubscribers, some activeSubscribers, some 0, some 0⟩
  let growthRate30d := orFalsyQ (stats.growthStats.bind (fun g => g.growth_rate)) 0
  ⟨totalSubscribers, activeSubscribers, unsubscribedCount, growthRate30d,
   listHealthScore⟩

/-- Embeds `buildSegmentationAnalysis` (src/functions/account-audit.ts, lines
131-163): the first 20 tags are queried individually, a rejected per-tag read
is caught and contributes no row. -/
def buildSegmentationAnalysis (env : AuditEnv)
    (tagSubs : Nat → PResult SubscribersResp) (tagsResponse : TagsResp) :
    SegmentationAnalysis :=
  let tags := tagsResponse.tags
  let tagUsageDistribution := (tags.take 20).filterMap (fun tag =>
    match tagSubs tag.id with
    | PResult.rejected _ => none
    | PResult.fulfilled subscribers =>
        some { tag := tag,
               subscriber_count :=
                 orFalsyNat (subscribers.pagination.bind (fun p => p.total_count)) 0,
               engagement_metrics := ⟨0, 0, 0, 0, 0⟩,
               usage_frequency := calculateTagUsageFrequency env.daysSince tag })
  { total_tags := tags.length,
    active_segments := tags.filter (fun tag => decide (env.cutoff90 < tag.created_at)),
    tag_usage_distribution := tagUsageDistribution,
    behavioral_tracking_status := assessBehavioralTracking tags }

/-- Embeds `buildAutomationOverview` (src/functions/account-audit.ts, lines
165-214): only non-held sequences count as active; the first 10 active ones
are queried individually, a rejected per-sequence read contributes no row. -/
def buildAutomationOverview (seqSubs : Nat → PResult SubscribersResp)
    (sequencesResponse : SequencesResp) : AutomationOverview :=
  let sequences := sequencesResponse.sequences
  let activeSequences := sequences.filter (fun seq => !seq.hold)
  let automationPerformance := (activeSequences.take 10).filterMap (fun sequence =>
    match seqSubs sequence.id with
    | PResult.rejected _ => none
    | PResult.fulfilled subscribers =>
        let entered :=
          orFalsyNat (subscribers.pagination.bind (fun p => p.total_count)) 0
        some { automation :=
                 { id := sequence.id,
                   name := sequence.name,
                   status := if sequence.hold then "archived" else "active",
                   trigger_type := "manual",
                   subscriber_count := entered,
                   conversion_rate := 0,
                   performance_data := ⟨sequence.id, 0, entered, 0, 0, 0⟩ },
               performance := ⟨sequence.id, 0, entered, 0, 0, 0⟩,
               optimization_score := calculateOptimizationScore sequence })
  { total_sequences := sequences.length,
    active_sequences := activeSequences,
    total_automations := sequences.length,
    active_automations := activeSequences,
    automation_performance := automationPerformance }

/-- Embeds `buildLeadCaptureAnalysis` (src/functions/account-audit.ts, lines
216-236): the first 10 forms are queried individually, a rejected per-form
read contributes no row; `form_performance` is always empty. -/
def buildLeadCaptureAnalysis (formSubs : Nat → PResult SubscribersResp)
    (formsResponse : FormsResp) : LeadCaptureAnalysis :=
  let forms := formsResponse.forms
  let conversionRates := (forms.take 10).filterMap (fun form =>
    match formSubs form.id with
    | PResult.rejected _ => none
    | PResult.fulfilled _ =>
        some { form_id := form.id,
               conversion_rate := orFalsyQ form.conversion_rate 0,
               subscriber_quality_score := calculateSubscriberQualityScore form })
  { total_forms := forms.length,
    form_performance := [],
    conversion_rates := conversionRates }

/-- Embeds `buildCustomFieldsAnalysis` (src/functions/account-audit.ts, lines
238-254). -/
def buildCustomFieldsAnalysis (customFields : List CustomField) :
    List CustomFieldAnalysis :=
  customFields.map (fun field =>
    { field := { id := field.id,
                 name := field.name,
                 key := field.key,
                 fieldType := orFalsyStr field.fieldType "text",
                 created_at := field.created_at },
      usage_percentage := 0,
      data_quality_score := calculateDataQualityScore field,
      personalization_opportunity := assessPersonalizationOpportunity field })

/-- Settled outcomes of the eight top-level reads of `execute` (account-audit.ts
lines 42-59) together with the per-item read outcomes of the three bounded
secondary fan-outs (indexed by entity id). -/
structure FanoutResults where
  account : PResult AccountResp
  emailStats : PResult EmailStatsResp
  growthStats : PResult GrowthStatsResp
  subscribers : PResult SubscribersResp
  tags : PResult TagsResp
  sequences : PResult SequencesResp
  forms : PResult FormsResp
  customFields : PResult CustomFieldsResp
  tagSubs : Nat → PResult SubscribersResp
  seqSubs : Nat → PResult SubscribersResp
  formSubs : Nat → PResult SubscribersResp

/-- Embeds lines 61-92 of `execute`: extract every settled outcome with
`getResult`, substitute the empty-response defaults for absent values, and
assemble the report.  `accountData` is extracted but never read afterwards,
exactly as in the source. -/
def buildAudit (env : AuditEnv) (r : FanoutResults) : AccountAudit :=
  let _accountData := getResult r.account
  let emailStatsData := getResult r.emailStats
  let growthStatsData := getResult r.growthStats
  let subscribersData := getResult r.subscribers
  let tagsData := getResult r.tags
  let sequencesData := getResult r.sequences
  let formsData := getResult r.forms
  let customFieldsData := getResult r.customFields
  let stats : StatsWrapper := ⟨emailStatsData, growthStatsData⟩
  let totalSubscribers :=
    orFalsyNat (subscribersData.bind (fun s => s.pagination.bind (fun p => p.total_count)))
      (orFalsyNat (subscribersData.map (fun s => s.subscribers.length)) 0)
  { account_summary := buildAccountSummary stats totalSubscribers,
    segmentation_analysis :=
      buildSegmentationAnalysis env r.tagSubs (tagsData.getD ⟨[]⟩),
    automation_overview :=
      buildAutomationOverview r.seqSubs (sequencesData.getD ⟨[]⟩),
    lead_capture_analysis :=
      buildLeadCaptureAnalysis r.formSubs (formsData.getD ⟨[]⟩),
    custom_fields_usage :=
      buildCustomFieldsAnalysis ((customFieldsData.map (fun c => c.custom_fields)).getD []),
    strategic_recommendations :=
      generateRecommendations statsWrapperIn (tagsData.getD ⟨[]⟩)
        (sequencesData.getD ⟨[]⟩) (formsData.getD ⟨[]⟩) }

/-- Embeds the try/catch body of `execute` after the fan-out has been reached
(account-audit.ts lines 40-101).  `Promise.allSettled` never rejects and every
per-item read inside the section builders is wrapped in its own try/catch, so
no failure of a remote read can reach the outer catch: the body always
resolves with the assembled report. -/
def executeFanout (env : AuditEnv) (r : FanoutResults) :
    Except String AccountAudit :=
  Except.ok (buildAudit env r)

/-- Parameters of `execute` (`AuditParams`); `include_performance` may be
absent, and JavaScript treats an absent flag as falsy. -/
structure AuditParams where
  include_performance : Option Bool
deriving DecidableEq, Repr

/-- Cache-key parameter object of `execute`: the fields actually present on
`params`, serialized for `ApiCache.generateKey`. -/
def paramsPairs (params : AuditParams) : List (String × Json) :=
  match params.include_performance with
  | some b => [("include_performance", Json.bool b)]
  | none => []

/-- The cache key `execute` computes: `ApiCache.generateKey('account_audit', params)`. -/
def auditKey (params : AuditParams) : String :=
  generateKey "account_audit" (paramsPairs params)

/-- Number of Remote API Client calls the build path makes: the eight
top-level reads plus one per item of each bounded secondary fan-out. -/
def apiCallCount (r : FanoutResults) : Nat :=
  8 + (match getResult r.tags with
       | some t => (t.tags.take 20).length
       | none => 0)
    + (match getResult r.sequences with
       | some s => ((s.sequences.filter (fun q => !q.hold)).take 10).length
       | none => 0)
    + (match getResult r.forms with
       | some f => (f.forms.take 10).length
       | none => 0)

/-- Embeds `execute` (src/functions/account-audit.ts, lines 29-102) as a state
transformer over the cache: on a non-performance request an unexpired cached
report is returned with no remote call; otherwise the report is built from the
fan-out outcomes, stored with the `medium` strategy, and returned.  The final
`Nat` counts the Remote API Client calls made. -/
def executeAudit (env : AuditEnv) (params : AuditParams) (r : FanoutResults)
    (st : CacheState AccountAudit) (now : Int) :
    AccountAudit × CacheState AccountAudit × Nat :=
  let cacheKey := auditKey params
  let includePerf := match params.include_performance with
    | some b => b
    | none => false
  let buildPath := fun (st₀ : CacheState AccountAudit) =>
    let audit := buildAudit env r
    let st₁ := (setWithStrategy st₀ cacheKey audit Strategy.medium now).1
    (audit, st₁, apiCallCount r)
  if includePerf then buildPath st
  else
    match cacheGet st cacheKey now with
    | (some cached, st') => (cached, st', 0)
    | (none, st') => buildPath st'

/-- Health-score formula as the specification states it:
`clamp(0,100, 100*(active/total) - 50*((bounced+complained)/total))` with
`total` floored at 1 when it is zero. -/
def healthScoreSpec (total active bounced complained : Nat) : ℚ :=
  let t : ℚ := if total = 0 then 1 else total
  max 0 (min 100 (100 * ((active : ℚ) / t) -
    50 * (((bounced : ℚ) + (complained : ℚ)) / t)))

/-- Valid cached value under a key in the specification's sense: present and
unexpired at `now`. -/
def validCached {V : Type} (st : CacheState V) (key : String) (now : Int) :
    Option V :=
  match cacheFind st key with
  | some (v, expiresAt) => if now < expiresAt then some v else none
  | none => none

/-- Fan-out outcome with every remote read rejected, used to instantiate the
theorems on concrete inputs. -/
def fanRejected : FanoutResults :=
  ⟨PResult.rejected "API Error", PResult.rejected "API Error",
   PResult.rejected "API Error", PResult.rejected "API Error",
   PResult.rejected "API Error", PResult.rejected "API Error",
   PResult.rejected "API Error", PResult.rejected "API Error",
   fun _ => PResult.rejected "API Error",
   fun _ => PResult.rejected "API Error",
   fun _ => PResult.rejected "API Error"⟩

/-- Trivial date environment for concrete instantiations. -/
def envZero : AuditEnv := ⟨"", fun _ => 0⟩

lemma mem_ite_singleton {a b : String} {c : Prop} [Decidable c] :
    a ∈ (if c then [b] else ([] : List String)) ↔ c ∧ a = b := by
  split_ifs with h <;> simp [h]

lemma mem_generateRecommendations (a : String) (stats : StatsIn) (tags : TagsResp)
    (sequences : SequencesResp) (forms : FormsResp) :
    a ∈ generateRecommendations stats tags sequences forms ↔
      (calculateListHealthScore stats < 70 ∧ a = recReEngagement) ∨
      (tags.tags.length < 5 ∧ a = recSegmentation) ∨
      ((sequences.sequences.filter (fun seq => !seq.hold)).length < 3 ∧
        a = recAutomation) ∨
      (forms.forms.length < 2 ∧ a = recLeadCapture) ∨
      a = recBrand ∨ a = recSegmentTracking := by
  simp [generateRecommendations, mem_ite_singleton, List.mem_append, or_assoc]

lemma lookup_perm_eq {α β : Type} [BEq α] [LawfulBEq α]
    {l₁ l₂ : List (α × β)} (h : l₁.Perm l₂)
    (nd : (l₁.map Prod.fst).Nodup) (k : α) :
    List.lookup k l₁ = List.lookup k l₂ := by
  induction h with
  | nil => rfl
  | cons x h ih =>
      obtain ⟨a, b⟩ := x
      simp only [List.lookup]
      split
      · rfl
      · exact ih (by simpa using nd.of_cons)
  | swap x y l =>
      obtain ⟨a, b⟩ := x
      obtain ⟨c, d⟩ := y
      have hne : c ≠ a := by
        simp only [List.map_cons, List.nodup_cons] at nd
        exact fun hca => nd.1 (by simp [hca])
      simp only [List.lookup]
      rcases hka : k == c with _ | _ <;> rcases hkb : k == a with _ | _ <;> simp
      · exact absurd (by rw [← eq_of_beq hka, eq_of_beq hkb]) hne
  | trans h₁ h₂ ih₁ ih₂ =>
      have nd₂ : (_ : List α).Nodup := ((h₁.map Prod.fst).nodup_iff).mp nd
      exact (ih₁ nd).trans (ih₂ nd₂)

/-- C1: for every outcome of the eight top-level reads (and of the bounded
per-item reads), the fan-in of `execute` resolves with a complete
`AccountAudit` whose recommendation section is populated; the outcome of
`getAccount` has no influence on the report at all; and a rejected `getTags`
read contributes the empty default to its section instead of aborting. -/
theorem executeFanout_partial_failure_tolerance :
    (∀ (env : AuditEnv) (r : FanoutResults),
        ∃ audit : AccountAudit, executeFanout env r = Except.ok audit ∧
          audit.strategic_recommendations ≠ []) ∧
    (∀ (env : AuditEnv) (r : FanoutResults) (o₁ o₂ : PResult AccountResp),
        executeFanout env { r with account := o₁ } =
          executeFanout env { r with account := o₂ }) ∧
    (∀ (env : AuditEnv) (r : FanoutResults) (reason : String),
        ∃ audit : AccountAudit,
          executeFanout env { r with tags := PResult.rejected reason } =
            Except.ok audit ∧
          audit.segmentation_analysis.total_tags = 0 ∧
          audit.segmentation_analysis.tag_usage_distribution = [] ∧
          audit.segmentation_analysis.active_segments = []) := by
  refine ⟨?_, ?_, ?_⟩
  · intro env r
    refine ⟨buildAudit env r, rfl, ?_⟩
    have hmem : recBrand ∈ (buildAudit env r).strategic_recommendations := by
      rw [show (buildAudit env r).strategic_recommendations =
        generateRecommendations statsWrapperIn
          ((getResult r.tags).getD ⟨[]⟩) ((getResult r.sequences).getD ⟨[]⟩)
          ((getResult r.forms).getD ⟨[]⟩) from rfl]
      exact (mem_generateRecommendations _ _ _ _ _).mpr
        (Or.inr (Or.inr (Or.inr (Or.inr (Or.inl rfl)))))
    exact List.ne_nil_of_mem hmem
  · intro env r o₁ o₂
    rfl
  · intro env r reason
    exact ⟨buildAudit env { r with tags := PResult.rejected reason },
      rfl, rfl, rfl, rfl⟩

/-- C2 counterexample: for the non-held, non-repeat sequence named
"Welcome Series" the computed optimization score is 70, not the claimed 80 —
the source's `includes('welcome')` is case-sensitive and does not match
"Welcome". -/
theorem calculateOptimizationScore_welcome_series_is_70 :
    calculateOptimizationScore ⟨1, "Welcome Series", false, false⟩ = 70 ∧
    calculateOptimizationScore ⟨1, "Welcome Series", false, false⟩ ≠ 80 := by
  decide

/-- C2 amended: the optimization score is
`min(100, 50 + 10·[name contains "welcome"] + 10·[name contains "nurture"]
+ 20·[not held] + 10·[repeat])` with case-sensitive containment, and the
non-held, non-repeat sequence named "Welcome Series" therefore scores 70. -/
theorem calculateOptimizationScore_formula :
    (∀ s : Sequence, calculateOptimizationScore s =
        min 100 (50 + (if containsStr s.name "welcome" then 10 else 0)
                    + (if containsStr s.name "nurture" then 10 else 0)
                    + (if s.hold then 0 else 20)
                    + (if s.repeatFlag then 10 else 0))) ∧
    calculateOptimizationScore ⟨1, "Welcome Series", false, false⟩ = 70 := by
  constructor
  · intro s
    cases hw : containsStr s.name "welcome" <;>
      cases hn : containsStr s.name "nurture" <;>
        cases hh : s.hold <;>
          cases hr : s.repeatFlag <;>
            simp [calculateOptimizationScore, hw, hn, hh, hr]
  · decide

/-- C3: each recommendation appears exactly under its rule threshold — the
re-engagement text iff the health score computed from the stats object passed
in is below 70, the segmentation text iff fewer than 5 tags, the
automation-expansion text iff fewer than 3 non-held sequences, the
lead-capture text iff fewer than 2 forms — the two generic recommendations are
always present, and with exactly 2 tags the segmentation entry is included.
The final conjunct records that the stats object `execute` actually passes
(the `{emailStats, growthStats}` wrapper, which carries no subscriber counts)
always scores 0, so the re-engagement rule fires on it. -/
theorem generateRecommendations_rule_thresholds :
    (∀ (stats : StatsIn) (tags : TagsResp) (sequences : SequencesResp)
        (forms : FormsResp),
      (recReEngagement ∈ generateRecommendations stats tags sequences forms ↔
          calculateListHealthScore stats < 70) ∧
      (recSegmentation ∈ generateRecommendations stats tags sequences forms ↔
          tags.tags.length < 5) ∧
      (recAutomation ∈ generateRecommendations stats tags sequences forms ↔
          (sequences.sequences.filter (fun seq => !seq.hold)).length < 3) ∧
      (recLeadCapture ∈ generateRecommendations stats tags sequences forms ↔
          forms.forms.length < 2) ∧
      recBrand ∈ generateRecommendations stats tags sequences forms ∧
      recSegmentTracking ∈ generateRecommendations stats tags sequences forms) ∧
    recSegmentation ∈ generateRecommendations statsWrapperIn
      ⟨[⟨1, "VIP", "2024-01-01"⟩, ⟨2, "Newsletter", "2024-01-02"⟩]⟩
      ⟨[]⟩ ⟨[]⟩ ∧
    calculateListHealthScore statsWrapperIn = 0 := by
  have d1 : ¬(recReEngagement = recSegmentation) := by decide
  have d2 : ¬(recReEngagement = recAutomation) := by decide
  have d3 : ¬(recReEngagement = recLeadCapture) := by decide
  have d4 : ¬(recReEngagement = recBrand) := by decide
  have d5 : ¬(recReEngagement = recSegmentTracking) := by decide
  have d6 : ¬(recSegmentation = recAutomation) := by decide
  have d7 : ¬(recSegmentation = recLeadCapture) := by decide
  have d8 : ¬(recSegmentation = recBrand) := by decide
  have d9 : ¬(recSegmentation = recSegmentTracking) := by decide
  have d10 : ¬(recAutomation = recLeadCapture) := by decide
  have d11 : ¬(recAutomation = recBrand) := by decide
  have d12 : ¬(recAutomation = recSegmentTracking) := by decide
  have d13 : ¬(recLeadCapture = recBrand) := by decide
  have d14 : ¬(recLeadCapture = recSegmentTracking) := by decide
  have main : ∀ (stats : StatsIn) (tags : TagsResp) (sequences : SequencesResp)
      (forms : FormsResp),
      (recReEngagement ∈ generateRecommendations stats tags sequences forms ↔
          calculateListHealthScore stats < 70) ∧
      (recSegmentation ∈ generateRecommendations stats tags sequences forms ↔
          tags.tags.length < 5) ∧
      (recAutomation ∈ generateRecommendations stats tags sequences forms ↔
          (sequences.sequences.filter (fun seq => !seq.hold)).length < 3) ∧
      (recLeadCapture ∈ generateRecommendations stats tags sequences forms ↔
          forms.forms.length < 2) ∧
      recBrand ∈ generateRecommendations stats tags sequences forms ∧
      recSegmentTracking ∈ generateRecommendations stats tags sequences forms := by
    intro stats tags sequences forms
    refine ⟨?_, ?_, ?_, ?_, ?_, ?_⟩ <;> rw [mem_generateRecommendations] <;>
      simp [d1, d2, d3, d4, d5, d6, d7, d8, d9, d10, d11, d12, d13, d14,
        Ne.symm d1, Ne.symm d2, Ne.symm d3, Ne.symm d4, Ne.symm d5,
        Ne.symm d6, Ne.symm d7, Ne.symm d8, Ne.symm d9, Ne.symm d10,
        Ne.symm d11, Ne.symm d12, Ne.symm d13, Ne.symm d14]
  refine ⟨main, (main statsWrapperIn _ _ _).2.1.mpr (by norm_num), ?_⟩
  norm_num [calculateListHealthScore, statsWrapperIn, orFalsyNat]

/-- C4: on an enabled cache with no entry under the derived key, a
non-performance `execute` call stores the finished report under
`generateKey("account_audit", params)` with the `medium` (900s) expiry, and a
second call within that TTL returns the same report while making zero Remote
API Client calls; a performance request also stores the built report with the
`medium` strategy. -/
theorem executeAudit_cache_roundtrip :
    (∀ (env : AuditEnv) (r r' : FanoutResults) (st : CacheState AccountAudit)
        (now now' : Int) (params : AuditParams),
      st.enabled = true →
      params.include_performance = some false →
      cacheFind st (auditKey params) = none →
      now' < now + 900 →
      cacheFind (executeAudit env params r st now).2.1 (auditKey params) =
        some ((executeAudit env params r st now).1, now + 900) ∧
      (executeAudit env params r'
          (executeAudit env params r st now).2.1 now').1 =
        (executeAudit env params r st now).1 ∧
      (executeAudit env params r'
          (executeAudit env params r st now).2.1 now').2.2 = 0) ∧
    (∀ (env : AuditEnv) (r : FanoutResults) (st : CacheState AccountAudit)
        (now : Int) (params : AuditParams),
      st.enabled = true →
      params.include_performance = some true →
      cacheFind (executeAudit env params r st now).2.1 (auditKey params) =
        some (buildAudit env r, now + 900)) := by
  constructor
  · intro env r r' st now now' params hen hp hmiss hlt
    have hmiss' : List.lookup (auditKey params) st.entries = none := hmiss
    have h1 : executeAudit env params r st now =
        (buildAudit env r,
         ⟨st.enabled,
          (auditKey params, buildAudit env r, now + 900) ::
            List.filter (fun e => !(e.1 == auditKey params)) st.entries,
          st.hits, st.misses + 1, st.defaultTTL⟩,
         apiCallCount r) := by
      simp [executeAudit, hp, cacheGet, hen, hmiss', setWithStrategy, cacheSet,
        strategyTTL, orFalsyInt]
    rw [h1]
    refine ⟨by simp [cacheFind, List.lookup], ?_, ?_⟩ <;>
      simp [executeAudit, hp, cacheGet, hen, List.lookup, hlt]
  · intro env r st now params hen hp
    have h1 : executeAudit env params r st now =
        (buildAudit env r,
         ⟨st.enabled,
          (auditKey params, buildAudit env r, now + 900) ::
            List.filter (fun e => !(e.1 == auditKey params)) st.entries,
          st.hits, st.misses, st.defaultTTL⟩,
         apiCallCount r) := by
      simp [executeAudit, hp, setWithStrategy, cacheSet, hen, strategyTTL,
        orFalsyInt]
    rw [h1]
    simp [cacheFind, List.lookup]

/-- C4 witness: concrete instantiation of the cache round trip at an empty
enabled cache, first call at time 0, second call at time 1. -/
theorem executeAudit_cache_roundtrip_witness :
    cacheFind (executeAudit envZero ⟨some false⟩ fanRejected
        ⟨true, [], 0, 0, 300⟩ 0).2.1 (auditKey ⟨some false⟩) =
      some ((executeAudit envZero ⟨some false⟩ fanRejected
        ⟨true, [], 0, 0, 300⟩ 0).1, 0 + 900) ∧
    (executeAudit envZero ⟨some false⟩ fanRejected
        (executeAudit envZero ⟨some false⟩ fanRejected
          ⟨true, [], 0, 0, 300⟩ 0).2.1 1).1 =
      (executeAudit envZero ⟨some false⟩ fanRejected
        ⟨true, [], 0, 0, 300⟩ 0).1 ∧
    (executeAudit envZero ⟨some false⟩ fanRejected
        (executeAudit envZero ⟨some false⟩ fanRejected
          ⟨true, [], 0, 0, 300⟩ 0).2.1 1).2.2 = 0 :=
  executeAudit_cache_roundtrip.1 envZero fanRejected fanRejected
    ⟨true, [], 0, 0, 300⟩ 0 1 ⟨some false⟩ rfl rfl rfl (by decide)

/-- C5: `canMakeRequest` first purges every window record whose timestamp is
60s or more before `now` and keeps the purged window; it admits exactly when
the remaining counts sum to strictly less than `requestsPerMinute`; with
`requestsPerMinute = 0` every check fails; and once every record has aged out
of the trailing window a positive limit admits again. -/
theorem canMakeRequest_sliding_window :
    (∀ (config : RateLimitConfig) (requests : List RequestRecord) (now : Int),
        (canMakeRequest config requests now).1 =
          requests.filter (fun req => now - 60000 < req.1) ∧
        ((canMakeRequest config requests now).2 = true ↔
          windowSum (requests.filter (fun req => now - 60000 < req.1)) <
            config.requestsPerMinute)) ∧
    (∀ (retryDelay maxRetryDelay : Int) (requests : List RequestRecord) (now : Int),
        (canMakeRequest ⟨0, retryDelay, maxRetryDelay⟩ requests now).2 = false) ∧
    (∀ (config : RateLimitConfig) (requests : List RequestRecord) (now : Int),
        (∀ req ∈ requests, req.1 + 60000 ≤ now) →
        1 ≤ config.requestsPerMinute →
        (canMakeRequest config requests now).2 = true) := by
  refine ⟨?_, ?_, ?_⟩
  · intro config requests now
    exact ⟨rfl, by simp [canMakeRequest]⟩
  · intro retryDelay maxRetryDelay requests now
    simp [canMakeRequest]
  · intro config requests now hold hpos
    have hnil : requests.filter (fun req => now - 60000 < req.1) = [] := by
      rw [List.filter_eq_nil_iff]
      intro req hreq
      simpa using not_lt.mpr (by linarith [hold req hreq])
    simp [canMakeRequest, hnil, windowSum]
    omega

/-- C5 witness: a single record of count 5 stamped at time 0 has aged out by
time 70000, so a limit of 2 admits again. -/
theorem canMakeRequest_sliding_window_witness :
    (canMakeRequest ⟨2, 1000, 10000⟩ [((0 : Int), 5)] 70000).2 = true :=
  canMakeRequest_sliding_window.2.2 ⟨2, 1000, 10000⟩ [((0 : Int), 5)] 70000
    (by decide) (by decide)

/-- C6: `generateKey` is invariant under any reordering of the parameter
entries (object keys are unique), returns the bare prefix on empty
parameters, and in particular gives the same key for `{a:1,b:2}` and
`{b:2,a:1}`. -/
theorem generateKey_order_invariant :
    (∀ (pfx : String) (l₁ l₂ : List (String × Json)), l₁.Perm l₂ →
        (l₁.map Prod.fst).Nodup → generateKey pfx l₁ = generateKey pfx l₂) ∧
    (∀ pfx : String, generateKey pfx [] = pfx) ∧
    generateKey "p" [("a", Json.num 1), ("b", Json.num 2)] =
      generateKey "p" [("b", Json.num 2), ("a", Json.num 1)] := by
  have main : ∀ (pfx : String) (l₁ l₂ : List (String × Json)), l₁.Perm l₂ →
      (l₁.map Prod.fst).Nodup → generateKey pfx l₁ = generateKey pfx l₂ := by
    intro pfx l₁ l₂ hperm hnd
    have hsort : List.insertionSort (· ≤ ·) (l₁.map Prod.fst) =
        List.insertionSort (· ≤ ·) (l₂.map Prod.fst) :=
      List.eq_of_perm_of_sorted
        (((List.perm_insertionSort _ _).trans (hperm.map Prod.fst)).trans
          (List.perm_insertionSort _ _).symm)
        (List.sorted_insertionSort _ _) (List.sorted_insertionSort _ _)
    have hfun : (fun k => k ++ ":" ++ jsonStringify (lookupJ k l₁)) =
        (fun k => k ++ ":" ++ jsonStringify (lookupJ k l₂)) := by
      funext k
      rw [lookupJ, lookupJ, lookup_perm_eq hperm hnd k]
    simp only [generateKey, hsort, hfun]
  refine ⟨main, fun pfx => rfl, ?_⟩
  exact main "p" _ _ (List.Perm.swap _ _ _) (by decide)

/-- C6 witness: concrete reordered two-entry parameter objects produce the
same key. -/
theorem generateKey_order_invariant_witness :
    generateKey "q" [("x", Json.num 3), ("y", Json.bool true)] =
      generateKey "q" [("y", Json.bool true), ("x", Json.num 3)] :=
  generateKey_order_invariant.1 "q" _ _ (List.Perm.swap _ _ _) (by decide)

/-- C7: on any explicit subscriber counts the audit's health score equals the
specification formula `clamp(0,100, 100*(active/total) -
50*((bounced+complained)/total))` with `total` floored at 1 when zero, and the
account summary built from 250 reported subscribers carries a list health
score of exactly 100. -/
theorem calculateListHealthScore_formula :
    (∀ total active bounced complained : Nat,
        calculateListHealthScore
            ⟨some total, some active, some bounced, some complained⟩ =
          healthScoreSpec total active bounced complained) ∧
    (∀ stats : StatsWrapper, (buildAccountSummary stats 250).list_health_score = 100) := by
  constructor
  · intro total active bounced complained
    simp only [calculateListHealthScore, healthScoreSpec, orFalsyNat]
    by_cases ht : total = 0 <;> by_cases ha : active = 0 <;>
      by_cases hb : bounced = 0 <;> by_cases hc : complained = 0 <;>
        simp [ht, ha, hb, hc] <;> ring_nf
  · intro stats
    have h : (buildAccountSummary stats 250).list_health_score =
        calculateListHealthScore ⟨some 250, some 250, some 0, some 0⟩ := rfl
    rw [h]
    simp only [calculateListHealthScore, orFalsyNat]
    norm_num

/-- C8: with the cache enabled, `getOrSet` returns a valid (present,
unexpired) cached value without invoking the supplier; otherwise it invokes
the supplier exactly once, stores its result under the key with the resolved
TTL (the passed TTL when truthy, else the configured default, matching the
source's `ttl || this.config.ttl`), and returns it. -/
theorem getOrSet_at_most_one_compute :
    ∀ (V : Type) (st : CacheState V) (key : String) (fetchFunction : Unit → V)
      (ttl : Option Int) (now : Int),
      st.enabled = true →
      (∀ v : V, validCached st key now = some v →
          (getOrSet st key fetchFunction ttl now).1 = v ∧
          (getOrSet st key fetchFunction ttl now).2.2 = 0) ∧
      (validCached st key now = none →
          (getOrSet st key fetchFunction ttl now).1 = fetchFunction () ∧
          (getOrSet st key fetchFunction ttl now).2.2 = 1 ∧
          cacheFind (getOrSet st key fetchFunction ttl now).2.1 key =
            some (fetchFunction (), now + orFalsyInt ttl st.defaultTTL)) := by
  intro V st key fetchFunction ttl now henabled
  constructor
  · intro v hvalid
    rcases hfind : List.lookup key st.entries with _ | ⟨w, expiresAt⟩
    · simp [validCached, cacheFind, hfind] at hvalid
    · by_cases hexp : now < expiresAt
      · have hv : w = v := by
          simpa [validCached, cacheFind, hfind, hexp] using hvalid
        subst hv
        simp [getOrSet, cacheGet, henabled, hfind, hexp]
      · simp [validCached, cacheFind, hfind, hexp] at hvalid
  · intro hvalid
    rcases hfind : List.lookup key st.entries with _ | ⟨w, expiresAt⟩
    · simp [getOrSet, cacheGet, cacheSet, cacheFind, henabled, hfind, List.lookup]
    · by_cases hexp : now < expiresAt
      · simp [validCached, cacheFind, hfind, hexp] at hvalid
      · simp [getOrSet, cacheGet, cacheSet, cacheFind, henabled, hfind, hexp,
          List.lookup]

/-- C8 witness: a valid entry `("k", 7)` expiring at time 100 is returned at
time 50 with zero supplier invocations. -/
theorem getOrSet_at_most_one_compute_witness :
    ((getOrSet (⟨true, [("k", (7 : Nat), (100 : Int))], 0, 0, 300⟩ : CacheState Nat)
        "k" (fun _ => 9) none 50).1 = 7 ∧
      (getOrSet (⟨true, [("k", (7 : Nat), (100 : Int))], 0, 0, 300⟩ : CacheState Nat)
        "k" (fun _ => 9) none 50).2.2 = 0) :=
  (getOrSet_at_most_one_compute Nat ⟨true, [("k", (7 : Nat), (100 : Int))], 0, 0, 300⟩
    "k" (fun _ => 9) none 50 rfl).1 7 (by decide)

/-- C9: the request window stays ordered by non-decreasing timestamp — a
record stamped at a time at or after every existing entry preserves the
order, the purges of `canMakeRequest` and `getStatus` preserve it, a sorted
window's first element is its oldest entry, and `getStatus` reports
`resetTime` as that oldest surviving timestamp plus 60000. -/
theorem rate_window_sorted_invariant :
    (∀ (requests : List RequestRecord) (now : Int) (count : Nat),
        SortedWindow requests → (∀ req ∈ requests, req.1 ≤ now) →
        SortedWindow (recordRequest requests now count)) ∧
    (∀ (config : RateLimitConfig) (requests : List RequestRecord) (now : Int),
        SortedWindow requests →
        SortedWindow (canMakeRequest config requests now).1) ∧
    (∀ (config : RateLimitConfig) (requests : List RequestRecord) (now : Int),
        SortedWindow requests →
        SortedWindow (getStatus config requests now).1) ∧
    (∀ requests : List RequestRecord, SortedWindow requests →
        ∀ oldest : RequestRecord, requests.head? = some oldest →
        ∀ req ∈ requests, oldest.1 ≤ req.1) ∧
    (∀ (config : RateLimitConfig) (requests : List RequestRecord) (now : Int),
        SortedWindow requests →
        ∀ oldest : RequestRecord,
          (getStatus config requests now).1.head? = some oldest →
          (getStatus config requests now).2.resetTime = oldest.1 + 60000 ∧
          ∀ req ∈ (getStatus config requests now).1, oldest.1 ≤ req.1) := by
  have headMin : ∀ requests : List RequestRecord, SortedWindow requests →
      ∀ oldest : RequestRecord, requests.head? = some oldest →
      ∀ req ∈ requests, oldest.1 ≤ req.1 := by
    intro requests hsorted oldest hhead req hreq
    cases requests with
    | nil => simp at hhead
    | cons a t =>
        simp only [List.head?_cons, Option.some.injEq] at hhead
        subst hhead
        rcases List.mem_cons.mp hreq with h | h
        · exact h ▸ le_refl _
        · exact (List.pairwise_cons.mp hsorted).1 req h
  refine ⟨?_, ?_, ?_, headMin, ?_⟩
  · intro requests now count hsorted hbound
    rw [recordRequest, SortedWindow, List.pairwise_append]
    refine ⟨hsorted, List.pairwise_singleton _ _, ?_⟩
    intro a ha b hb
    rw [List.mem_singleton] at hb
    subst hb
    exact hbound a ha
  · intro config requests now hsorted
    exact List.Pairwise.filter _ hsorted
  · intro config requests now hsorted
    exact List.Pairwise.filter _ hsorted
  · intro config requests now hsorted oldest hhead
    have hsorted' : SortedWindow (getStatus config requests now).1 :=
      List.Pairwise.filter _ hsorted
    refine ⟨?_, headMin _ hsorted' oldest hhead⟩
    have h1 : (getStatus config requests now).1 =
        requests.filter (fun req => now - 60000 < req.1) := rfl
    simp only [getStatus, h1] at hhead ⊢
    rw [hhead]

/-- C9 witness: appending a record stamped at time 10 to the sorted window
`[(5,1),(7,2)]` keeps the window sorted. -/
theorem rate_window_sorted_invariant_witness :
    SortedWindow (recordRequest [((5 : Int), 1), ((7 : Int), 2)] 10 1) :=
  rate_window_sorted_invariant.1 [((5 : Int), 1), ((7 : Int), 2)] 10 1
    (by unfold SortedWindow; decide) (by decide)

/-- C10: the personalization classification is decided by case-insensitive
substring matching with fixed precedence — a lowercased name containing
"name" is always High (email personalization) even when it also contains
"location", "state", "specialty" or "industry"; otherwise "location"/"state"
give Medium, then "specialty"/"industry" give High, else Low — and because
matching is by substring, "estate" (containing "state") is Medium and
"UserName" (containing "name" after lowercasing) is High. -/
theorem assessPersonalizationOpportunity_precedence :
    (∀ f : CustomField, containsStr (lowerStr f.name) "name" = true →
        assessPersonalizationOpportunity f = "High - Use for email personalization") ∧
    (∀ f : CustomField, containsStr (lowerStr f.name) "name" = false →
        (containsStr (lowerStr f.name) "location" = true ∨
         containsStr (lowerStr f.name) "state" = true) →
        assessPersonalizationOpportunity f = "Medium - Geographic targeting") ∧
    (∀ f : CustomField, containsStr (lowerStr f.name) "name" = false →
        containsStr (lowerStr f.name) "location" = false →
        containsStr (lowerStr f.name) "state" = false →
        (containsStr (lowerStr f.name) "specialty" = true ∨
         containsStr (lowerStr f.name) "industry" = true) →
        assessPersonalizationOpportunity f = "High - Professional/industry segmentation") ∧
    (∀ f : CustomField, containsStr (lowerStr f.name) "name" = false →
        containsStr (lowerStr f.name) "location" = false →
        containsStr (lowerStr f.name) "state" = false →
        containsStr (lowerStr f.name) "specialty" = false →
        containsStr (lowerStr f.name) "industry" = false →
        assessPersonalizationOpportunity f = "Low - General data field") ∧
    assessPersonalizationOpportunity ⟨1, "estate", none, none, ""⟩ =
      "Medium - Geographic targeting" ∧
    assessPersonalizationOpportunity ⟨2, "UserName", none, none, ""⟩ =
      "High - Use for email personalization" ∧
    assessPersonalizationOpportunity ⟨3, "state of name", none, none, ""⟩ =
      "High - Use for email personalization" := by
  refine ⟨?_, ?_, ?_, ?_, by decide, by decide, by decide⟩
  · intro f h
    simp [assessPersonalizationOpportunity, h]
  · rintro f h (h1 | h1) <;> simp [assessPersonalizationOpportunity, h, h1]
  · rintro f h h1 h2 (h3 | h3) <;>
      simp [assessPersonalizationOpportunity, h, h1, h2, h3]
  · intro f h h1 h2 h3 h4
    simp [assessPersonalizationOpportunity, h, h1, h2, h3, h4]

/-- C10 witness: the field named "Company Name" lowercases to a string
containing "name" and is classified High for email personalization. -/
theorem assessPersonalizationOpportunity_precedence_witness :
    assessPersonalizationOpportunity ⟨4, "Company Name", none, none, ""⟩ =
      "High - Use for email personalization" :=
  assessPersonalizationOpportunity_precedence.1
    ⟨4, "Company Name", none, none, ""⟩ (by decide)
